import Mathlib

/-!
Shallow embedding of the token-authenticated backend of this repository:
the deployed Lambda handler in src/lambda/index.js (the DynamoDB-backed
variant, lines 195-643) together with the API-Gateway Cognito authorizer
declared in api-gateway.tf.  The DynamoDB table (dynamo.tf) has primary key
(id, created_at) and a global secondary index user-index keyed by
(user_id, created_at); it is modelled as a list of items with put/query/delete
semantics.  External effects (the Dog API call, DynamoDB client failures, the
wall clock) are passed in explicitly.
-/

namespace CognitoApp

/-- A row of the saved-images DynamoDB table, exactly the item shape built by
`saveImageToDynamoDB` in src/lambda/index.js. -/
structure Item where
  id : String
  user_id : String
  created_at : String
  image_url : String
  status : String
  breed : String
  description : String
  deriving DecidableEq

/-- One reading of the wall clock: `Date.now()` in milliseconds and the same
instant rendered by `new Date().toISOString()` (the source reads the clock
twice within one save; both readings are modelled as a single instant). -/
structure Clock where
  ms : Nat
  iso : String
  deriving DecidableEq

/-- Parsed JSON from the Dog API, or the object synthesised in the
save_image branch of `handlePostRequest`. -/
structure DogData where
  message : String
  status : String
  description : Option String := none
  deriving DecidableEq

/-- JavaScript `x || d` for an optional string: `undefined` and the empty
string are falsy. -/
def jsOr : Option String → String → String
  | some s, d => if s = "" then d else s
  | none, d => d

/-- JavaScript truthiness of an optional string field (among strings only the
empty string is falsy). -/
def truthy : Option String → Bool
  | some s => s != ""
  | none => false

/-- One attempt of the regex `/breeds\x2f([^\x2f]+)\x2f/` at the current
position: the literal text "breeds/", then a maximal nonempty run of
non-slash characters, then a slash; the run is the captured group. -/
def breedsAt (l : List Char) : Option (List Char) :=
  if l.take 7 = ("breeds/").toList then
    let rest := l.drop 7
    let run := rest.takeWhile (fun c => c ≠ '/')
    if run ≠ [] ∧ (rest.drop run.length).head? = some '/' then some run else none
  else none

/-- Leftmost match of the regex over the string, as JS `String.match` finds it. -/
def findBreedRun : List Char → Option (List Char)
  | [] => none
  | c :: cs =>
    match breedsAt (c :: cs) with
    | some r => some r
    | none => findBreedRun cs

/-- `extractBreedFromUrl` (src/lambda/index.js lines 287-295): the first
`breeds/<segment>/` path component with hyphens replaced by spaces, else
"unknown". -/
def extractBreedFromUrl (url : String) : String :=
  match findBreedRun url.toList with
  | some r => String.mk (r.map (fun c => if c = '-' then ' ' else c))
  | none => "unknown"

/-- Equality of DynamoDB primary keys `(id, created_at)`. -/
def keyEq (a b : Item) : Prop := a.id = b.id ∧ a.created_at = b.created_at

instance : DecidableRel keyEq := fun a b => by unfold keyEq; exact inferInstance

/-- DynamoDB `put`: an item whose primary key already exists replaces the
stored row, otherwise the item is appended. -/
def putItem (table : List Item) (it : Item) : List Item :=
  if table.any (fun r => decide (keyEq r it)) then
    table.map (fun r => if keyEq r it then it else r)
  else table ++ [it]

/-- Query order of the user-index with `ScanIndexForward: false`: newest
`created_at` first. -/
def descRel (a b : Item) : Prop := b.created_at ≤ a.created_at

/-- Default query order of the user-index (ascending `created_at`), used by
the delete lookup, which sets no `ScanIndexForward`. -/
def ascRel (a b : Item) : Prop := a.created_at ≤ b.created_at

instance : DecidableRel descRel := fun a b => by unfold descRel; exact inferInstance

instance : DecidableRel ascRel := fun a b => by unfold ascRel; exact inferInstance

instance : IsTotal Item descRel := ⟨fun a b => le_total b.created_at a.created_at⟩

instance : IsTrans Item descRel := ⟨fun _ _ _ h1 h2 => le_trans h2 h1⟩

instance : IsTotal Item ascRel := ⟨fun a b => le_total a.created_at b.created_at⟩

instance : IsTrans Item ascRel := ⟨fun _ _ _ h1 h2 => le_trans h1 h2⟩

/-- Query of the `user-index` GSI: the owner's rows ordered by the range key
`created_at` (a deterministic sorted model of the index order), ascending when
`forward` (the DynamoDB default), descending otherwise. -/
def queryUser (table : List Item) (u : String) (forward : Bool) : List Item :=
  let base := table.filter (fun r => decide (r.user_id = u))
  if forward then List.insertionSort ascRel base else List.insertionSort descRel base

/-- `getSavedImages` (src/lambda/index.js lines 264-284): query the GSI with
`ScanIndexForward: false` and `Limit`.  `storeFail` injects a DynamoDB client
error (a rejected `.promise()`), rethrown by the function. -/
def getSavedImages (storeFail : Option String) (table : List Item)
    (userId : String) (limit : Nat) : Except String (List Item) :=
  match storeFail with
  | some m => Except.error m
  | none => Except.ok ((queryUser table userId false).take limit)

/-- `saveImageToDynamoDB` (src/lambda/index.js lines 227-261). -/
def saveImageToDynamoDB (storeFail : Option String) (table : List Item)
    (userId : String) (dogData : DogData) (clock : Clock) :
    Except String (Item × List Item) :=
  let breed := extractBreedFromUrl dogData.message
  let item : Item :=
    { id := userId ++ "-" ++ toString clock.ms
      user_id := userId
      created_at := clock.iso
      image_url := dogData.message
      status := dogData.status
      breed := breed
      description := jsOr dogData.description
        ("A beautiful " ++ breed ++ " dog from the Dog API collection") }
  match storeFail with
  | some m => Except.error m
  | none => Except.ok (item, putItem table item)

/-- `deleteImageFromDynamoDB` (src/lambda/index.js lines 298-334): query the
GSI in its default ascending order, filter by exact URL, throw if no match,
else delete the first match by primary key and return its id. -/
def deleteImageFromDynamoDB (storeFail : Option String) (table : List Item)
    (userId imageUrl : String) : Except String (String × List Item) :=
  match storeFail with
  | some m => Except.error m
  | none =>
    let found := (queryUser table userId true).filter
      (fun r => decide (r.image_url = imageUrl))
    match found with
    | [] => Except.error ("Image not found in saved collection")
    | it :: _ =>
      Except.ok (it.id, table.filter (fun r => decide (¬ keyEq r it)))

/-- The claims object placed by the Cognito authorizer into
`event.requestContext.authorizer.claims` (empty object when absent). -/
structure ClaimsInfo where
  sub : Option String := none
  email : Option String := none
  deriving DecidableEq

/-- `event.body` after the handler's `JSON.parse` attempt.  A parsed object
(or any non-null value, including an unparsable raw string kept as-is) exposes
optional `action`/`imageUrl` fields, `undefined` modelled as `none`; JSON
`null` makes the later `body.action` access throw a TypeError. -/
inductive ReqBody
  | obj (action : Option String) (imageUrl : Option String)
  | nullish
  deriving DecidableEq

/-- The TypeError raised by reading `body.action` when the body is null. -/
def nullReadErr : String := "Cannot read properties of null"

structure QueryParams where
  action : Option String := none
  limit : Option String := none
  deriving DecidableEq

structure Event where
  httpMethod : String
  claims : ClaimsInfo := {}
  queryStringParameters : QueryParams := {}
  body : ReqBody := ReqBody.obj none none
  requestId : String := ""
  deriving DecidableEq

structure DeleteResult where
  success : Bool
  deletedId : String
  deriving DecidableEq

/-- The error kinds of the Token Verifier contract.
Modelled from the spec: `verify(rawToken) → VerifiedIdentity | AuthError`;
the verifier itself is the managed API-Gateway Cognito authorizer declared in
api-gateway.tf, whose code is not part of the repository. -/
inductive AuthError
  | NoToken
  | MalformedToken
  | KeyNotFound
  | SignatureInvalid
  | Expired
  | IssuerMismatch
  | AudienceMismatch
  deriving DecidableEq

/-- The JSON response body fields the specification's claims inspect. -/
structure RespBody where
  message : String
  user : Option String := none
  requestId : Option String := none
  error : Option String := none
  kind : Option AuthError := none
  dogData : Option DogData := none
  savedImage : Option Item := none
  savedImages : Option (List Item) := none
  deleteResult : Option DeleteResult := none
  deriving DecidableEq

structure Response where
  statusCode : Nat
  body : RespBody
  deriving DecidableEq

/-- JS `parseInt` on the leading decimal digits, `none` for NaN. -/
def parseIntJs (s : String) : Option Nat :=
  let ds := s.toList.takeWhile (fun c => c.isDigit)
  if ds = [] then none else
    some (ds.foldl (fun n c => 10 * n + (c.toNat - 48)) 0)

/-- `parseInt(queryParams.limit) || 10`: NaN and 0 both fall back to 10. -/
def limitOf (o : Option String) : Nat :=
  match o with
  | none => 10
  | some s =>
    match parseIntJs s with
    | none => 10
    | some 0 => 10
    | some n => n

/-- `handleGetRequest` (src/lambda/index.js lines 414-484).  `dogApi` is the
outcome of the `makeHttpRequest` call to the Dog API. -/
def handleGetRequest (storeFail : Option String) (dogApi : Except String DogData)
    (table : List Item) (ev : Event) : Response × List Item :=
  let userId := jsOr ev.claims.sub ("unknown")
  if ev.queryStringParameters.action = some ("saved") then
    match getSavedImages storeFail table userId (limitOf ev.queryStringParameters.limit) with
    | Except.error m =>
      ({ statusCode := 500,
         body := { message := "Error processing GET request", error := some m } }, table)
    | Except.ok imgs =>
      ({ statusCode := 200,
         body := { message := "Saved images retrieved successfully!",
                   user := some userId, requestId := some ev.requestId,
                   savedImages := some imgs } }, table)
  else
    match dogApi with
    | Except.error m =>
      ({ statusCode := 500,
         body := { message := "Error processing GET request", error := some m } }, table)
    | Except.ok dog =>
      ({ statusCode := 200,
         body := { message := "Dog image fetched successfully!",
                   user := some userId, requestId := some ev.requestId,
                   dogData := some dog } }, table)

/-- `handlePostRequest` (src/lambda/index.js lines 486-578). -/
def handlePostRequest (storeFail : Option String) (dogApi : Except String DogData)
    (table : List Item) (clock : Clock) (ev : Event) : Response × List Item :=
  match ev.body with
  | ReqBody.nullish =>
    ({ statusCode := 500,
       body := { message := "Error processing POST request", error := some nullReadErr } },
     table)
  | ReqBody.obj act img =>
    let userId := jsOr ev.claims.sub ("unknown")
    if act = some ("save_image") ∧ truthy img = true then
      let dogData : DogData := { message := img.getD (""), status := "success" }
      match saveImageToDynamoDB storeFail table userId dogData clock with
      | Except.error m =>
        ({ statusCode := 500,
           body := { message := "Error processing POST request", error := some m } },
         table)
      | Except.ok (it, table') =>
        ({ statusCode := 200,
           body := { message := "Image saved successfully!",
                     user := some userId, requestId := some ev.requestId,
                     savedImage := some it } }, table')
    else
      match dogApi with
      | Except.error m =>
        ({ statusCode := 500,
           body := { message := "Error processing POST request", error := some m } },
         table)
      | Except.ok dog =>
        match saveImageToDynamoDB storeFail table userId dog clock with
        | Except.error m =>
          ({ statusCode := 500,
             body := { message := "Error processing POST request", error := some m } },
           table)
        | Except.ok (it, table') =>
          ({ statusCode := 201,
             body := { message := "Data received and dog image fetched and saved!",
                       user := some userId, requestId := some ev.requestId,
                       dogData := some dog, savedImage := some it } }, table')

/-- `handleDeleteRequest` (src/lambda/index.js lines 580-642). -/
def handleDeleteRequest (storeFail : Option String) (table : List Item)
    (ev : Event) : Response × List Item :=
  match ev.body with
  | ReqBody.nullish =>
    ({ statusCode := 500,
       body := { message := "Error processing DELETE request", error := some nullReadErr } },
     table)
  | ReqBody.obj act img =>
    let userId := jsOr ev.claims.sub ("unknown")
    if act = some ("delete_image") ∧ truthy img = true then
      match deleteImageFromDynamoDB storeFail table userId (img.getD ("")) with
      | Except.error m =>
        ({ statusCode := 500,
           body := { message := "Error processing DELETE request", error := some m } },
         table)
      | Except.ok (did, table') =>
        ({ statusCode := 200,
           body := { message := "Image deleted successfully!",
                     user := some userId, requestId := some ev.requestId,
                     deleteResult := some { success := true, deletedId := did } } },
         table')
    else
      ({ statusCode := 400,
         body := { message := "Invalid DELETE request. Expected action: delete_image and imageUrl" } },
       table)

/-- `exports.handler` (src/lambda/index.js lines 336-412): method dispatch;
inner handlers never throw (every failure is caught inside them), so the outer
catch is unreachable and is not modelled as a separate outcome. -/
def handler (storeFail : Option String) (dogApi : Except String DogData)
    (table : List Item) (clock : Clock) (ev : Event) : Response × List Item :=
  if ev.httpMethod = "GET" then handleGetRequest storeFail dogApi table ev
  else if ev.httpMethod = "POST" then handlePostRequest storeFail dogApi table clock ev
  else if ev.httpMethod = "DELETE" then handleDeleteRequest storeFail table ev
  else if ev.httpMethod = "OPTIONS" then
    ({ statusCode := 200, body := { message := "" } }, table)
  else
    ({ statusCode := 405, body := { message := "Method not allowed" } }, table)

/-- Modelled from the spec: a provider signing key (SigningKey, spec data
model); the key material is opaque here. -/
structure SigningKey where
  keyId : String
  modulus : Nat
  exponent : Nat
  deriving DecidableEq

/-- Modelled from the spec: the parsed header of a bearer token. -/
structure TokenHeader where
  kid : Option String
  alg : String
  deriving DecidableEq

/-- Modelled from the spec: the decoded claim set of a bearer token. -/
structure TokenPayload where
  sub : String
  email : Option String := none
  exp : Nat
  iss : String
  aud : String
  deriving DecidableEq

/-- Modelled from the spec: a raw token either fails structural parsing into
three dot-separated segments, or yields a header, a payload, and the abstract
fact whether its signature over header.payload verifies as RS256 under the
resolved key. -/
inductive Token
  | malformed
  | parsed (header : TokenHeader) (payload : TokenPayload) (sigOkRS256 : Bool)
  deriving DecidableEq

/-- Modelled from the spec: the Authorization header after stripping an
optional Bearer prefix; `absent` covers both a missing header and an empty
remainder. -/
inductive BearerInput
  | absent
  | present (t : Token)
  deriving DecidableEq

/-- Modelled from the spec: VerifiedIdentity {subject, email, expiry}. -/
structure VerifiedIdentity where
  subject : String
  email : Option String
  expiry : Nat
  deriving DecidableEq

/-- Modelled from the spec: expected issuer URL and application client id. -/
structure VerifierConfig where
  issuer : String
  audience : String
  deriving DecidableEq

/-- Modelled from the spec: the Token Verifier algorithm of §4.2, steps 1-7 in
order (the verifier is the managed Cognito authorizer declared in
api-gateway.tf; its code is not in the repository).  `keys` is the Key
Resolver after its one refresh attempt. -/
def verify (cfg : VerifierConfig) (keys : String → Option SigningKey)
    (now : Nat) (input : BearerInput) : Except AuthError VerifiedIdentity :=
  match input with
  | BearerInput.absent => Except.error AuthError.NoToken
  | BearerInput.present Token.malformed => Except.error AuthError.MalformedToken
  | BearerInput.present (Token.parsed h p sigOk) =>
    match h.kid with
    | none => Except.error AuthError.MalformedToken
    | some kid =>
      match keys kid with
      | none => Except.error AuthError.KeyNotFound
      | some _ =>
        if h.alg ≠ "RS256" then Except.error AuthError.SignatureInvalid
        else if sigOk = false then Except.error AuthError.SignatureInvalid
        else if p.exp ≤ now then Except.error AuthError.Expired
        else if p.iss ≠ cfg.issuer then Except.error AuthError.IssuerMismatch
        else if p.aud ≠ cfg.audience then Except.error AuthError.AudienceMismatch
        else Except.ok { subject := p.sub, email := p.email, expiry := p.exp }

/-- An incoming HTTP request as the gateway sees it. -/
structure Request where
  httpMethod : String
  queryStringParameters : QueryParams := {}
  body : ReqBody := ReqBody.obj none none
  auth : BearerInput
  requestId : String := ""

/-- Modelled from the spec: the Request Router authorization gate (§4.4).
The managed API-Gateway Cognito authorizer verifies the bearer token before
the Lambda handler runs; any AuthError yields 401 carrying the error kind,
and only a verified identity reaches the handler as its claims object. -/
def gateway (cfg : VerifierConfig) (keys : String → Option SigningKey)
    (now : Nat) (storeFail : Option String) (dogApi : Except String DogData)
    (table : List Item) (clock : Clock) (req : Request) : Response × List Item :=
  match verify cfg keys now req.auth with
  | Except.error e =>
    ({ statusCode := 401, body := { message := "Unauthorized", kind := some e } }, table)
  | Except.ok ident =>
    handler storeFail dogApi table clock
      { httpMethod := req.httpMethod
        queryStringParameters := req.queryStringParameters
        body := req.body
        claims := { sub := some ident.subject, email := ident.email }
        requestId := req.requestId }

end CognitoApp

namespace CognitoApp

/-! ### Store-model helper lemmas -/

theorem keyEq_refl (a : Item) : keyEq a a := ⟨rfl, rfl⟩

theorem keyEq_symm {a b : Item} (h : keyEq a b) : keyEq b a := ⟨h.1.symm, h.2.symm⟩

theorem putItem_mem_self (table : List Item) (it : Item) : it ∈ putItem table it := by
  unfold putItem
  split
  · next hany =>
    rcases List.any_eq_true.mp hany with ⟨r, hr, hkey⟩
    exact List.mem_map.mpr ⟨r, hr, by rw [if_pos (of_decide_eq_true hkey)]⟩
  · simp

theorem mem_of_mem_putItem {table : List Item} {it x : Item}
    (h : x ∈ putItem table it) : x = it ∨ x ∈ table := by
  unfold putItem at h
  split at h
  · rcases List.mem_map.mp h with ⟨r, hr, hx⟩
    by_cases hk : keyEq r it
    · left; rw [if_pos hk] at hx; exact hx.symm
    · right; rw [if_neg hk] at hx; exact hx ▸ hr
  · rcases List.mem_append.mp h with hx | hx
    · right; exact hx
    · left; simpa using hx

theorem mem_queryUser {table : List Item} {u : String} {fwd : Bool} {x : Item} :
    x ∈ queryUser table u fwd ↔ x ∈ table ∧ x.user_id = u := by
  unfold queryUser
  cases fwd <;> simp [List.mem_insertionSort, List.mem_filter]

theorem sorted_queryUser_desc (table : List Item) (u : String) :
    List.Sorted descRel (queryUser table u false) :=
  List.sorted_insertionSort descRel _

theorem sorted_queryUser_asc (table : List Item) (u : String) :
    List.Sorted ascRel (queryUser table u true) :=
  List.sorted_insertionSort ascRel _

theorem length_filter_key_remove (l : List Item) (m : Item)
    (hU : l.Pairwise (fun a b => ¬ keyEq a b)) (hm : m ∈ l) :
    (l.filter (fun r => decide (¬ keyEq r m))).length + 1 = l.length := by
  induction l with
  | nil => cases hm
  | cons a t ih =>
    rcases List.pairwise_cons.mp hU with ⟨ha, ht⟩
    rcases List.mem_cons.mp hm with rfl | hmt
    · have h2 : t.filter (fun r => decide (¬ keyEq r m)) = t := by
        apply List.filter_eq_self.mpr
        intro b hb
        exact decide_eq_true (fun hk => ha b hb (keyEq_symm hk))
      simp [List.filter_cons, keyEq_refl m, h2]
      exact fun b hb hk => ha b hb (keyEq_symm hk)
    · have h1 : ¬ keyEq a m := ha m hmt
      have h2 := ih ht hmt
      simp only [List.filter_cons, decide_eq_true h1, if_true, List.length_cons]
      omega

end CognitoApp

namespace CognitoApp

/-! ### Claim C1 -/

/-- Claim C1: a request carrying no bearer token (no verified Authorization
claims) is rejected by the gateway with HTTP 401 and a body carrying the
error kind NoToken, and no record-store operation is attempted before that
rejection: the store is returned unchanged and the response does not depend
on the store contents, the store oracle, or any downstream call. -/
theorem noToken_401_no_store_op
    (cfg : VerifierConfig) (keys : String → Option SigningKey) (now : Nat)
    (storeFail : Option String) (dogApi : Except String DogData)
    (table : List Item) (clock : Clock) (m : String) (q : QueryParams)
    (b : ReqBody) (rid : String) :
    gateway cfg keys now storeFail dogApi table clock
      { httpMethod := m, queryStringParameters := q, body := b,
        auth := BearerInput.absent, requestId := rid } =
      ({ statusCode := 401,
         body := { message := "Unauthorized", kind := some AuthError.NoToken } },
       table) := rfl

/-! ### Claim C2 -/

/-- Claim C2 counterexample: the §4.2 verifier resolves the signing key
(step 3) before checking the declared algorithm (step 5), so a token
declaring alg "none" whose key id is absent from the resolved key set is
rejected with KeyNotFound — which is neither SignatureInvalid nor
MalformedToken, refuting the claimed error set (the token is still never
accepted). -/
theorem verify_algNone_unknownKid_keyNotFound :
    verify { issuer := "https://pool.example/p1", audience := "client-1" }
      (fun _ => none) 0
      (BearerInput.present (Token.parsed { kid := some ("k1"), alg := "none" }
        { sub := "u", exp := 10, iss := "https://pool.example/p1", aud := "client-1" }
        true)) = Except.error AuthError.KeyNotFound ∧
    AuthError.KeyNotFound ≠ AuthError.SignatureInvalid ∧
    AuthError.KeyNotFound ≠ AuthError.MalformedToken :=
  ⟨rfl, by decide, by decide⟩

/-- Claim C2 (amended): for every parsed token whose header declares an
algorithm other than RS256, `verify` rejects the token and never returns a
VerifiedIdentity; the rejection kind is MalformedToken when the header lacks
a key id, KeyNotFound when the declared key id is not in the resolved key
set, and SignatureInvalid otherwise. -/
theorem verify_rejects_non_rs256
    (cfg : VerifierConfig) (keys : String → Option SigningKey) (now : Nat)
    (h : TokenHeader) (p : TokenPayload) (s : Bool)
    (halg : h.alg ≠ "RS256") :
    verify cfg keys now (BearerInput.present (Token.parsed h p s)) =
      Except.error
        (match h.kid with
         | none => AuthError.MalformedToken
         | some kid =>
           match keys kid with
           | none => AuthError.KeyNotFound
           | some _ => AuthError.SignatureInvalid) := by
  rcases hkid : h.kid with _ | kid
  · simp [verify, hkid]
  · rcases hkey : keys kid with _ | k
    · simp [verify, hkid, hkey]
    · simp [verify, hkid, hkey, halg]

/-- Witness for the amended Claim C2 at a concrete alg "none" token whose key
id resolves. -/
theorem verify_rejects_non_rs256_witness :
    ({ kid := some ("k1"), alg := "none" } : TokenHeader).alg ≠ "RS256" ∧
    verify { issuer := "https://pool.example/p1", audience := "client-1" }
      (fun _ => some { keyId := "k1", modulus := 7, exponent := 3 }) 0
      (BearerInput.present (Token.parsed { kid := some ("k1"), alg := "none" }
        { sub := "u", exp := 10, iss := "https://pool.example/p1", aud := "client-1" }
        true)) = Except.error AuthError.SignatureInvalid :=
  ⟨by decide,
   verify_rejects_non_rs256 { issuer := "https://pool.example/p1", audience := "client-1" }
     (fun _ => some { keyId := "k1", modulus := 7, exponent := 3 }) 0
     { kid := some ("k1"), alg := "none" }
     { sub := "u", exp := 10, iss := "https://pool.example/p1", aud := "client-1" }
     true (by decide)⟩

/-! ### Claim C10 -/

/-- Dog API payloads and the shared clock instant used to exhibit the id
collision of two same-millisecond creates. -/
def dogA : DogData := { message := "https://images.dog.ceo/breeds/hound/a.jpg", status := "success" }

def dogB : DogData := { message := "https://images.dog.ceo/breeds/hound/b.jpg", status := "success" }

def clkSame : Clock := { ms := 1700000000000, iso := "2024-01-01T00:00:00.000Z" }

def itemA : Item :=
  { id := "user-a-1700000000000", user_id := "user-a",
    created_at := "2024-01-01T00:00:00.000Z",
    image_url := "https://images.dog.ceo/breeds/hound/a.jpg",
    status := "success", breed := "hound",
    description := "A beautiful hound dog from the Dog API collection" }

def itemB : Item :=
  { id := "user-a-1700000000000", user_id := "user-a",
    created_at := "2024-01-01T00:00:00.000Z",
    image_url := "https://images.dog.ceo/breeds/hound/b.jpg",
    status := "success", breed := "hound",
    description := "A beautiful hound dog from the Dog API collection" }

/-- Claim C10: the id is `userId + "-" + Date.now()`, so two distinct
successful creates by the same owner within the same millisecond generate the
same id, contradicting the claimed global uniqueness (and the code comment
"Unique ID combining user ID and timestamp"); the second put even overwrites
the first record, which is silently lost. -/
theorem same_millisecond_creates_collide :
    saveImageToDynamoDB none [] ("user-a") dogA clkSame = Except.ok (itemA, [itemA]) ∧
    saveImageToDynamoDB none [itemA] ("user-a") dogB clkSame = Except.ok (itemB, [itemB]) ∧
    itemA.id = itemB.id ∧ itemA ≠ itemB := by
  refine ⟨rfl, rfl, rfl, by decide⟩

end CognitoApp

namespace CognitoApp

/-! ### Claim C3 -/

/-- Claim C3 counterexample: on an empty store, a verified DELETE with
`{action: "delete_image", imageUrl: <never-saved url>}` is answered with
HTTP 500 (the handler's generic catch path), not the claimed 404. -/
theorem delete_missing_url_counterexample :
    (handleDeleteRequest none []
      { httpMethod := "DELETE", claims := { sub := some ("user-1") },
        body := ReqBody.obj (some ("delete_image"))
          (some ("https://images.dog.ceo/breeds/foo/never.jpg")) }).1.statusCode = 500 ∧
    (500 : Nat) ≠ 404 :=
  ⟨rfl, by decide⟩

/-- Claim C3 (amended): for every verified owner and payload URL for which the
owner has no saved record, the DELETE operation fails inside
`deleteImageFromDynamoDB` with the error "Image not found in saved
collection", which the handler's catch maps to HTTP 500 (there is no 404 path
in the code); the store is left unchanged. -/
theorem delete_missing_url_500
    (table : List Item) (owner url rid : String)
    (howner : owner ≠ "") (hurl : url ≠ "")
    (hnone : ∀ r ∈ table, r.user_id = owner → r.image_url ≠ url) :
    handleDeleteRequest none table
      { httpMethod := "DELETE", claims := { sub := some owner }, requestId := rid,
        body := ReqBody.obj (some ("delete_image")) (some url) } =
      ({ statusCode := 500,
         body := { message := "Error processing DELETE request",
                   error := some ("Image not found in saved collection") } },
       table) := by
  have hfound : (queryUser table owner true).filter
      (fun r => decide (r.image_url = url)) = [] := by
    apply List.filter_eq_nil_iff.mpr
    intro a ha
    have hmem := mem_queryUser.mp ha
    simpa using hnone a hmem.1 hmem.2
  simp [handleDeleteRequest, deleteImageFromDynamoDB, jsOr, howner, truthy,
    hurl, hfound]

/-- Witness for the amended Claim C3 on the empty store. -/
theorem delete_missing_url_500_witness :
    (∀ r ∈ ([] : List Item), r.user_id = "user-1" →
      r.image_url ≠ "https://images.dog.ceo/breeds/foo/never.jpg") ∧
    handleDeleteRequest none []
      { httpMethod := "DELETE", claims := { sub := some ("user-1") }, requestId := "r1",
        body := ReqBody.obj (some ("delete_image"))
          (some ("https://images.dog.ceo/breeds/foo/never.jpg")) } =
      ({ statusCode := 500,
         body := { message := "Error processing DELETE request",
                   error := some ("Image not found in saved collection") } },
       []) :=
  ⟨fun r hr => absurd hr (List.not_mem_nil r),
   delete_missing_url_500 [] ("user-1") ("https://images.dog.ceo/breeds/foo/never.jpg")
     ("r1") (by decide) (by decide) (fun r hr => absurd hr (List.not_mem_nil r))⟩

/-! ### Claim C4 -/

/-- Claim C4 counterexample: when the record store fails during a verified
save, the 500 response body carries the raw store error text verbatim in its
`error` field — the claim that raw provider/store error text is never
included in the response body is false. -/
theorem store_error_leaks_raw_text :
    (handlePostRequest (some ("connect ECONNREFUSED dynamodb.us-east-1.amazonaws.com"))
      (Except.ok dogA) [] clkSame
      { httpMethod := "POST", claims := { sub := some ("user-1") },
        body := ReqBody.obj (some ("save_image"))
          (some ("https://images.dog.ceo/breeds/hound/a.jpg")) }).1 =
      { statusCode := 500,
        body := { message := "Error processing POST request",
                  error := some ("connect ECONNREFUSED dynamodb.us-east-1.amazonaws.com") } } :=
  rfl

/-- Claim C4 (amended): whenever an upstream call or the record store fails —
on GET (fresh fetch or saved-list), on POST (save-image or the default
fetch-and-save), or on DELETE — the handler returns HTTP 500 whose body
carries the generic per-method message together with the raw provider/store
error text in its `error` field: the raw error text IS returned to the caller
(it is not withheld), and the store is left unchanged on every such path. -/
theorem failed_upstream_or_store_returns_500_with_raw_text :
    (∀ (m : String) (dogApi : Except String DogData) (table : List Item)
       (clock : Clock) (c : ClaimsInfo) (lim : Option String) (b : ReqBody)
       (rid : String),
       handler (some m) dogApi table clock
         { httpMethod := "GET", claims := c,
           queryStringParameters := { action := some ("saved"), limit := lim },
           body := b, requestId := rid } =
         ({ statusCode := 500,
            body := { message := "Error processing GET request", error := some m } },
          table)) ∧
    (∀ (m : String) (storeFail : Option String) (table : List Item)
       (clock : Clock) (c : ClaimsInfo) (q : QueryParams) (b : ReqBody)
       (rid : String), q.action ≠ some ("saved") →
       handler storeFail (Except.error m) table clock
         { httpMethod := "GET", claims := c, queryStringParameters := q,
           body := b, requestId := rid } =
         ({ statusCode := 500,
            body := { message := "Error processing GET request", error := some m } },
          table)) ∧
    (∀ (m : String) (dogApi : Except String DogData) (table : List Item)
       (clock : Clock) (c : ClaimsInfo) (q : QueryParams) (url rid : String),
       url ≠ "" →
       handler (some m) dogApi table clock
         { httpMethod := "POST", claims := c, queryStringParameters := q,
           body := ReqBody.obj (some ("save_image")) (some url), requestId := rid } =
         ({ statusCode := 500,
            body := { message := "Error processing POST request", error := some m } },
          table)) ∧
    (∀ (m : String) (storeFail : Option String) (table : List Item)
       (clock : Clock) (c : ClaimsInfo) (q : QueryParams) (act img : Option String)
       (rid : String), ¬(act = some ("save_image") ∧ truthy img = true) →
       handler storeFail (Except.error m) table clock
         { httpMethod := "POST", claims := c, queryStringParameters := q,
           body := ReqBody.obj act img, requestId := rid } =
         ({ statusCode := 500,
            body := { message := "Error processing POST request", error := some m } },
          table)) ∧
    (∀ (m : String) (dog : DogData) (table : List Item) (clock : Clock)
       (c : ClaimsInfo) (q : QueryParams) (act img : Option String)
       (rid : String), ¬(act = some ("save_image") ∧ truthy img = true) →
       handler (some m) (Except.ok dog) table clock
         { httpMethod := "POST", claims := c, queryStringParameters := q,
           body := ReqBody.obj act img, requestId := rid } =
         ({ statusCode := 500,
            body := { message := "Error processing POST request", error := some m } },
          table)) ∧
    (∀ (m : String) (dogApi : Except String DogData) (table : List Item)
       (clock : Clock) (c : ClaimsInfo) (q : QueryParams) (url rid : String),
       url ≠ "" →
       handler (some m) dogApi table clock
         { httpMethod := "DELETE", claims := c, queryStringParameters := q,
           body := ReqBody.obj (some ("delete_image")) (some url), requestId := rid } =
         ({ statusCode := 500,
            body := { message := "Error processing DELETE request", error := some m } },
          table)) := by
  refine ⟨?_, ?_, ?_, ?_, ?_, ?_⟩
  · intro m dogApi table clock c lim b rid
    simp [handler, handleGetRequest, getSavedImages]
  · intro m storeFail table clock c q b rid hq
    simp [handler, handleGetRequest, hq]
  · intro m dogApi table clock c q url rid hurl
    simp [handler, handlePostRequest, truthy, hurl, saveImageToDynamoDB]
  · intro m storeFail table clock c q act img rid hno
    simp [handler, handlePostRequest, hno]
  · intro m dog table clock c q act img rid hno
    simp [handler, handlePostRequest, hno, saveImageToDynamoDB]
  · intro m dogApi table clock c q url rid hurl
    simp [handler, handleDeleteRequest, truthy, hurl, deleteImageFromDynamoDB]

/-- Witness for the amended Claim C4: each failure path exercised at a
concrete request and raw error message. -/
theorem failed_upstream_or_store_returns_500_with_raw_text_witness :
    handler (some ("store down")) (Except.ok dogA) [] clkSame
      { httpMethod := "GET", claims := { sub := some ("user-1") },
        queryStringParameters := { action := some ("saved"), limit := some ("5") },
        body := ReqBody.obj none none, requestId := "r1" } =
      ({ statusCode := 500,
         body := { message := "Error processing GET request", error := some ("store down") } },
       []) ∧
    handler none (Except.error ("dog api down")) [] clkSame
      { httpMethod := "GET", claims := { sub := some ("user-1") },
        body := ReqBody.obj none none, requestId := "r1" } =
      ({ statusCode := 500,
         body := { message := "Error processing GET request", error := some ("dog api down") } },
       []) ∧
    handler (some ("store down")) (Except.ok dogA) [] clkSame
      { httpMethod := "POST", claims := { sub := some ("user-1") },
        body := ReqBody.obj (some ("save_image"))
          (some ("https://images.dog.ceo/breeds/hound/a.jpg")), requestId := "r1" } =
      ({ statusCode := 500,
         body := { message := "Error processing POST request", error := some ("store down") } },
       []) ∧
    handler none (Except.error ("dog api down")) [] clkSame
      { httpMethod := "POST", claims := { sub := some ("user-1") },
        body := ReqBody.obj none none, requestId := "r1" } =
      ({ statusCode := 500,
         body := { message := "Error processing POST request", error := some ("dog api down") } },
       []) ∧
    handler (some ("store down")) (Except.ok dogA) [] clkSame
      { httpMethod := "POST", claims := { sub := some ("user-1") },
        body := ReqBody.obj none none, requestId := "r1" } =
      ({ statusCode := 500,
         body := { message := "Error processing POST request", error := some ("store down") } },
       []) ∧
    handler (some ("store down")) (Except.ok dogA) [] clkSame
      { httpMethod := "DELETE", claims := { sub := some ("user-1") },
        body := ReqBody.obj (some ("delete_image"))
          (some ("https://images.dog.ceo/breeds/hound/a.jpg")), requestId := "r1" } =
      ({ statusCode := 500,
         body := { message := "Error processing DELETE request", error := some ("store down") } },
       []) :=
  ⟨failed_upstream_or_store_returns_500_with_raw_text.1 ("store down") (Except.ok dogA)
     [] clkSame { sub := some ("user-1") } (some ("5")) (ReqBody.obj none none) ("r1"),
   failed_upstream_or_store_returns_500_with_raw_text.2.1 ("dog api down") none [] clkSame
     { sub := some ("user-1") } {} (ReqBody.obj none none) ("r1") (by decide),
   failed_upstream_or_store_returns_500_with_raw_text.2.2.1 ("store down") (Except.ok dogA)
     [] clkSame { sub := some ("user-1") } {}
     ("https://images.dog.ceo/breeds/hound/a.jpg") ("r1") (by decide),
   failed_upstream_or_store_returns_500_with_raw_text.2.2.2.1 ("dog api down") none []
     clkSame { sub := some ("user-1") } {} none none ("r1") (by decide),
   failed_upstream_or_store_returns_500_with_raw_text.2.2.2.2.1 ("store down") dogA []
     clkSame { sub := some ("user-1") } {} none none ("r1") (by decide),
   failed_upstream_or_store_returns_500_with_raw_text.2.2.2.2.2 ("store down")
     (Except.ok dogA) [] clkSame { sub := some ("user-1") } {}
     ("https://images.dog.ceo/breeds/hound/a.jpg") ("r1") (by decide)⟩

end CognitoApp

namespace CognitoApp

/-! ### Claim C6 -/

/-- Claim C6 counterexample: for the claimed URL
"https://x/y/breed-name/img.jpg" the regex `breeds/<segment>/` does not match
(there is no "breeds/" path component), so the save succeeds with 200 but the
stored category is "unknown", not the claimed "breed name". -/
theorem save_breed_name_url_counterexample :
    (handlePostRequest none (Except.ok dogA) [] clkSame
      { httpMethod := "POST", claims := { sub := some ("user-1") },
        body := ReqBody.obj (some ("save_image"))
          (some ("https://x/y/breed-name/img.jpg")) }).1.statusCode = 200 ∧
    (handlePostRequest none (Except.ok dogA) [] clkSame
      { httpMethod := "POST", claims := { sub := some ("user-1") },
        body := ReqBody.obj (some ("save_image"))
          (some ("https://x/y/breed-name/img.jpg")) }).1.body.savedImage.map Item.breed =
      some ("unknown") ∧
    ("unknown" : String) ≠ "breed name" :=
  ⟨rfl, rfl, by decide⟩

/-- Claim C6 (amended): a verified POST `{action: "save_image", imageUrl}`
succeeds with status 200 and the stored record's category is
`extractBreedFromUrl imageUrl` — the hyphen-to-space translation of the path
segment that follows a literal "breeds/" component; derivation is total and
never fails the operation, falling back to "unknown" when the URL has no such
component, as the claimed URL "https://x/y/breed-name/img.jpg" does not
(only e.g. "https://x/breeds/breed-name/img.jpg" yields "breed name"). -/
theorem save_image_succeeds_with_derived_category
    (dogApi : Except String DogData) (table : List Item) (clock : Clock)
    (c : ClaimsInfo) (url rid : String) (hurl : url ≠ "") :
    ((handlePostRequest none dogApi table clock
       { httpMethod := "POST", claims := c, requestId := rid,
         body := ReqBody.obj (some ("save_image")) (some url) }).1.statusCode = 200 ∧
     (handlePostRequest none dogApi table clock
       { httpMethod := "POST", claims := c, requestId := rid,
         body := ReqBody.obj (some ("save_image")) (some url) }).1.body.savedImage.map
         Item.breed = some (extractBreedFromUrl url)) ∧
    extractBreedFromUrl ("https://x/breeds/breed-name/img.jpg") = "breed name" ∧
    extractBreedFromUrl ("https://x/y/breed-name/img.jpg") = "unknown" := by
  refine ⟨⟨?_, ?_⟩, by decide, by decide⟩ <;>
    simp [handlePostRequest, truthy, hurl, saveImageToDynamoDB]

/-- Witness for the amended Claim C6 at the breeds-path URL. -/
theorem save_image_succeeds_with_derived_category_witness :
    ((handlePostRequest none (Except.ok dogA) [] clkSame
       { httpMethod := "POST", claims := { sub := some ("user-1") }, requestId := "r1",
         body := ReqBody.obj (some ("save_image"))
           (some ("https://x/breeds/breed-name/img.jpg")) }).1.statusCode = 200 ∧
     (handlePostRequest none (Except.ok dogA) [] clkSame
       { httpMethod := "POST", claims := { sub := some ("user-1") }, requestId := "r1",
         body := ReqBody.obj (some ("save_image"))
           (some ("https://x/breeds/breed-name/img.jpg")) }).1.body.savedImage.map
         Item.breed = some (extractBreedFromUrl ("https://x/breeds/breed-name/img.jpg"))) ∧
    extractBreedFromUrl ("https://x/breeds/breed-name/img.jpg") = "breed name" ∧
    extractBreedFromUrl ("https://x/y/breed-name/img.jpg") = "unknown" :=
  save_image_succeeds_with_derived_category (Except.ok dogA) [] clkSame
    { sub := some ("user-1") } ("https://x/breeds/breed-name/img.jpg") ("r1")
    (by decide)

/-! ### Claim C9 -/

/-- Claim C9 counterexample: a verified POST whose body is not a recognized
action payload is answered 201 by the router — it falls through to the
default fetch-and-save action — not 400 as claimed. -/
theorem post_malformed_body_returns_201 :
    (handler none (Except.ok dogA) [] clkSame
      { httpMethod := "POST", claims := { sub := some ("user-1") },
        body := ReqBody.obj none none }).1.statusCode = 201 ∧
    (201 : Nat) ≠ 400 :=
  ⟨rfl, by decide⟩

/-- Claim C9 (amended): a DELETE whose body is an object not matching the
delete_image action is answered 400; a request whose method is outside
{GET, POST, DELETE, OPTIONS} is answered 405; but a POST whose body is an
object not matching the save_image action is NOT answered 400 — it falls
through to the default fetch-and-save action and succeeds with 201. -/
theorem router_malformed_body_and_unknown_method :
    (∀ (storeFail : Option String) (dogApi : Except String DogData)
       (table : List Item) (clock : Clock) (c : ClaimsInfo) (q : QueryParams)
       (rid : String) (act img : Option String),
       ¬(act = some ("delete_image") ∧ truthy img = true) →
       handler storeFail dogApi table clock
         { httpMethod := "DELETE", claims := c, queryStringParameters := q,
           body := ReqBody.obj act img, requestId := rid } =
         ({ statusCode := 400,
            body := { message := "Invalid DELETE request. Expected action: delete_image and imageUrl" } },
          table)) ∧
    (∀ (storeFail : Option String) (dogApi : Except String DogData)
       (table : List Item) (clock : Clock) (ev : Event),
       ev.httpMethod ≠ "GET" → ev.httpMethod ≠ "POST" →
       ev.httpMethod ≠ "DELETE" → ev.httpMethod ≠ "OPTIONS" →
       handler storeFail dogApi table clock ev =
         ({ statusCode := 405, body := { message := "Method not allowed" } }, table)) ∧
    (∀ (dog : DogData) (table : List Item) (clock : Clock) (c : ClaimsInfo)
       (q : QueryParams) (rid : String),
       (handler none (Except.ok dog) table clock
         { httpMethod := "POST", claims := c, queryStringParameters := q,
           body := ReqBody.obj none none, requestId := rid }).1.statusCode = 201) := by
  refine ⟨?_, ?_, ?_⟩
  · intro storeFail dogApi table clock c q rid act img hno
    simp [handler, handleDeleteRequest, hno]
  · intro storeFail dogApi table clock ev h1 h2 h3 h4
    simp [handler, h1, h2, h3, h4]
  · intro dog table clock c q rid
    simp [handler, handlePostRequest, truthy, saveImageToDynamoDB]

/-- Witness for the amended Claim C9 at concrete malformed-body and
unknown-method requests. -/
theorem router_malformed_body_and_unknown_method_witness :
    handler none (Except.ok dogA) [] clkSame
      { httpMethod := "DELETE", claims := { sub := some ("user-1") },
        body := ReqBody.obj (some ("other")) none } =
      ({ statusCode := 400,
         body := { message := "Invalid DELETE request. Expected action: delete_image and imageUrl" } },
       []) ∧
    handler none (Except.ok dogA) [] clkSame
      { httpMethod := "PUT", claims := { sub := some ("user-1") },
        body := ReqBody.obj none none } =
      ({ statusCode := 405, body := { message := "Method not allowed" } }, []) ∧
    (handler none (Except.ok dogA) [] clkSame
      { httpMethod := "POST", claims := { sub := some ("user-1") },
        body := ReqBody.obj none none }).1.statusCode = 201 :=
  ⟨router_malformed_body_and_unknown_method.1 none (Except.ok dogA) [] clkSame
     { sub := some ("user-1") } {} ("") (some ("other")) none (by decide),
   router_malformed_body_and_unknown_method.2.1 none (Except.ok dogA) [] clkSame
     { httpMethod := "PUT", claims := { sub := some ("user-1") },
       body := ReqBody.obj none none }
     (by decide) (by decide) (by decide) (by decide),
   router_malformed_body_and_unknown_method.2.2 dogA [] clkSame
     { sub := some ("user-1") } {} ("")⟩

end CognitoApp

namespace CognitoApp

/-! ### Claim C8 -/

/-- Claim C8: `list(owner, limit)` (a `getSavedImages` call on a healthy
store) returns a finite sequence of the owner's stored records, ordered
newest-first by `created_at` (descRel-sorted), with length at most `limit`;
the result is the unique list returned for this `(owner, limit)` and store
state, so repeated calls with no intervening writes return the same ordered
sequence (the adapter is a pure function of the store state). -/
theorem list_newest_first_bounded (table : List Item) (owner : String) (limit : Nat) :
    ∃ l, getSavedImages none table owner limit = Except.ok l ∧
      l.length ≤ limit ∧
      (∀ r ∈ l, r ∈ table ∧ r.user_id = owner) ∧
      List.Sorted descRel l ∧
      (∀ l', getSavedImages none table owner limit = Except.ok l' → l' = l) := by
  refine ⟨(queryUser table owner false).take limit, rfl,
    List.length_take_le _ _, ?_, ?_, ?_⟩
  · intro r hr
    exact mem_queryUser.mp (List.take_subset _ _ hr)
  · have hs : List.Pairwise descRel (queryUser table owner false) :=
      sorted_queryUser_desc table owner
    exact hs.sublist (List.take_sublist _ _)
  · intro l' hl'
    simp only [getSavedImages, Except.ok.injEq] at hl'
    exact hl'.symm

/-! ### Claim C5 -/

/-- A freshly put item strictly newer than every stored record of its owner is
the head of the newest-first query, hence in every `take N` with `1 ≤ N`. -/
theorem putItem_fresh_mem_query_take
    (table : List Item) (it : Item) (N : Nat) (hN : 1 ≤ N)
    (hfresh : ∀ r ∈ table, r.user_id = it.user_id → r.created_at < it.created_at) :
    it ∈ (queryUser (putItem table it) it.user_id false).take N := by
  have hq : it ∈ queryUser (putItem table it) it.user_id false :=
    mem_queryUser.mpr ⟨putItem_mem_self table it, rfl⟩
  have hs : List.Sorted descRel (queryUser (putItem table it) it.user_id false) :=
    sorted_queryUser_desc _ _
  rcases hqu : queryUser (putItem table it) it.user_id false with _ | ⟨h, t⟩
  · rw [hqu] at hq; cases hq
  · rw [hqu] at hq hs
    by_cases hh : h = it
    · subst hh
      obtain ⟨n, rfl⟩ : ∃ n, N = n + 1 := ⟨N - 1, (Nat.succ_pred_eq_of_pos hN).symm⟩
      simp [List.take_succ_cons]
    · have hit : it ∈ t := by
        rcases List.mem_cons.mp hq with h1 | h1
        · exact absurd h1.symm hh
        · exact h1
      have hrel : descRel h it := List.rel_of_sorted_cons hs it hit
      have hhmem : h ∈ queryUser (putItem table it) it.user_id false := by
        rw [hqu]; exact List.mem_cons_self h t
      rcases mem_queryUser.mp hhmem with ⟨hhtab, hhuser⟩
      rcases mem_of_mem_putItem hhtab with rfl | hhtab'
      · exact absurd rfl hh
      · exact absurd hrel (not_le.mpr (hfresh h hhtab' hhuser))

/-- Claim C5: within one session (the new record's timestamp is strictly
newer than every record the owner already has), a record created via
`create(owner, url)` — `saveImageToDynamoDB` with the save_image payload —
appears in `list(owner, N)` for every `N ≥ 1` on the resulting store, and it
never appears in `list(otherOwner, N)` for any other owner. -/
theorem create_then_list_roundtrip
    (table : List Item) (owner other url : String) (clock : Clock) (N : Nat)
    (hother : other ≠ owner) (hN : 1 ≤ N)
    (hfresh : ∀ r ∈ table, r.user_id = owner → r.created_at < clock.iso) :
    ∃ it table' l lo,
      saveImageToDynamoDB none table owner { message := url, status := "success" } clock
        = Except.ok (it, table') ∧
      it.image_url = url ∧ it.user_id = owner ∧
      getSavedImages none table' owner N = Except.ok l ∧ it ∈ l ∧
      getSavedImages none table' other N = Except.ok lo ∧ it ∉ lo := by
  refine ⟨_, _, _, _, rfl, rfl, rfl, rfl, ?_, rfl, ?_⟩
  · exact putItem_fresh_mem_query_take table _ N hN hfresh
  · intro hmem
    have hq := mem_queryUser.mp (List.take_subset _ _ hmem)
    exact hother hq.2.symm

/-- Witness for Claim C5 on the empty store. -/
theorem create_then_list_roundtrip_witness :
    ("user-b" : String) ≠ "user-a" ∧ (1 : Nat) ≤ 1 ∧
    (∀ r ∈ ([] : List Item), r.user_id = "user-a" →
      r.created_at < "2024-01-01T00:00:00.000Z") ∧
    (∃ it table' l lo,
      saveImageToDynamoDB none [] ("user-a")
        { message := "https://images.dog.ceo/breeds/hound/a.jpg", status := "success" }
        { ms := 1700000000000, iso := "2024-01-01T00:00:00.000Z" }
        = Except.ok (it, table') ∧
      it.image_url = "https://images.dog.ceo/breeds/hound/a.jpg" ∧
      it.user_id = "user-a" ∧
      getSavedImages none table' ("user-a") 1 = Except.ok l ∧ it ∈ l ∧
      getSavedImages none table' ("user-b") 1 = Except.ok lo ∧ it ∉ lo) :=
  ⟨by decide, by decide, fun r hr => absurd hr (List.not_mem_nil r),
   create_then_list_roundtrip [] ("user-a") ("user-b")
     ("https://images.dog.ceo/breeds/hound/a.jpg")
     { ms := 1700000000000, iso := "2024-01-01T00:00:00.000Z" } 1
     (by decide) (by decide) (fun r hr => absurd hr (List.not_mem_nil r))⟩

end CognitoApp

namespace CognitoApp

/-! ### Claim C7 -/

/-- An older and a newer record of the same owner sharing one payload URL. -/
def recOld : Item :=
  { id := "u-1", user_id := "u", created_at := "2024-01-01T00:00:00.000Z",
    image_url := "https://images.dog.ceo/breeds/hound/a.jpg",
    status := "success", breed := "hound", description := "d" }

def recNew : Item :=
  { id := "u-2", user_id := "u", created_at := "2024-01-02T00:00:00.000Z",
    image_url := "https://images.dog.ceo/breeds/hound/a.jpg",
    status := "success", breed := "hound", description := "d" }

/-- Claim C7 counterexample: with two records sharing the same owner and URL,
`deleteImageFromDynamoDB` deletes the OLDEST match (the lookup query uses the
index's default ascending order: no `ScanIndexForward` is set), returning its
id "u-1" — not the newest match "u-2" as the claim ("first match by newest
creation time") states. -/
theorem delete_duplicate_url_removes_oldest :
    deleteImageFromDynamoDB none [recOld, recNew]
      ("u") ("https://images.dog.ceo/breeds/hound/a.jpg") =
      Except.ok ("u-1", [recNew]) ∧
    recOld.created_at < recNew.created_at ∧
    recOld.id ≠ recNew.id := by
  have hle : ascRel recOld recNew := by
    show recOld.created_at ≤ recNew.created_at
    rw [String.le_iff_toList_le]
    decide
  have hq : queryUser [recOld, recNew] ("u") true = [recOld, recNew] := by
    have h1 : queryUser [recOld, recNew] ("u") true =
        List.orderedInsert ascRel recOld [recNew] := rfl
    have h2 : List.orderedInsert ascRel recOld [recNew] =
        if ascRel recOld recNew then recOld :: [recNew]
        else recNew :: List.orderedInsert ascRel recOld [] := rfl
    rw [h1, h2, if_pos hle]
  refine ⟨?_, ?_, by decide⟩
  · show (match (queryUser [recOld, recNew] ("u") true).filter
        (fun r => decide (r.image_url = "https://images.dog.ceo/breeds/hound/a.jpg")) with
      | [] => (Except.error ("Image not found in saved collection") :
          Except String (String × List Item))
      | it :: _ =>
        Except.ok (it.id, [recOld, recNew].filter (fun r => decide (¬ keyEq r it)))) =
      Except.ok ("u-1", [recNew])
    rw [hq]
    rfl
  · show ("2024-01-01T00:00:00.000Z" : String) < "2024-01-02T00:00:00.000Z"
    rw [String.lt_iff_toList_lt]
    decide

/-- Claim C7 (amended): for every owner and URL with at least one matching
saved record (and a store whose primary keys are unique, the invariant `put`
maintains), `deleteByOwnerAndUrl` deletes exactly one record —
deterministically the first match by OLDEST creation time, since the lookup
query runs in the index's default ascending order — leaves every other record
unchanged, and returns the deleted record's id. -/
theorem delete_removes_oldest_match
    (table : List Item) (owner url : String)
    (hmatch : ∃ r, r ∈ table ∧ r.user_id = owner ∧ r.image_url = url)
    (hkeys : table.Pairwise (fun a b => ¬ keyEq a b)) :
    ∃ m table',
      m ∈ table ∧ m.user_id = owner ∧ m.image_url = url ∧
      (∀ r ∈ table, r.user_id = owner → r.image_url = url →
        m.created_at ≤ r.created_at) ∧
      deleteImageFromDynamoDB none table owner url = Except.ok (m.id, table') ∧
      table'.length + 1 = table.length ∧
      (∀ r ∈ table', r ∈ table) ∧
      (∀ r ∈ table, r ≠ m → r ∈ table') ∧
      m ∉ table' := by
  rcases hmatch with ⟨r0, hr0tab, hr0u, hr0url⟩
  have hr0f : r0 ∈ (queryUser table owner true).filter
      (fun r => decide (r.image_url = url)) :=
    List.mem_filter.mpr ⟨mem_queryUser.mpr ⟨hr0tab, hr0u⟩, decide_eq_true hr0url⟩
  have hsP : List.Pairwise ascRel (queryUser table owner true) :=
    sorted_queryUser_asc table owner
  have hsf : List.Pairwise ascRel ((queryUser table owner true).filter
      (fun r => decide (r.image_url = url))) :=
    hsP.sublist (List.filter_sublist _)
  rcases hf : (queryUser table owner true).filter (fun r => decide (r.image_url = url))
    with _ | ⟨m, rest⟩
  · rw [hf] at hr0f; cases hr0f
  · rw [hf] at hr0f hsf
    have hmf : m ∈ (queryUser table owner true).filter
        (fun r => decide (r.image_url = url)) := by
      rw [hf]; exact List.mem_cons_self m rest
    rcases List.mem_filter.mp hmf with ⟨hmq, hmurl'⟩
    rcases mem_queryUser.mp hmq with ⟨hmtab, hmu⟩
    have hmurl : m.image_url = url := of_decide_eq_true hmurl'
    have hdel : deleteImageFromDynamoDB none table owner url =
        Except.ok (m.id, table.filter (fun r => decide (¬ keyEq r m))) := by
      simp only [deleteImageFromDynamoDB]
      rw [hf]
    refine ⟨m, table.filter (fun r => decide (¬ keyEq r m)),
      hmtab, hmu, hmurl, ?_, hdel, ?_, ?_, ?_, ?_⟩
    · intro r hrtab hru hrurl
      have hrf : r ∈ (queryUser table owner true).filter
          (fun r => decide (r.image_url = url)) :=
        List.mem_filter.mpr ⟨mem_queryUser.mpr ⟨hrtab, hru⟩, decide_eq_true hrurl⟩
      rw [hf] at hrf
      rcases List.mem_cons.mp hrf with rfl | hrrest
      · exact le_refl _
      · exact List.rel_of_sorted_cons hsf r hrrest
    · exact length_filter_key_remove table m hkeys hmtab
    · intro r hr
      exact (List.mem_filter.mp hr).1
    · intro r hrtab hrne
      refine List.mem_filter.mpr ⟨hrtab, decide_eq_true ?_⟩
      have hsymm : Symmetric (fun a b : Item => ¬ keyEq a b) :=
        fun a b hab hk => hab (keyEq_symm hk)
      exact (hkeys.forall hsymm) hrtab hmtab hrne
    · intro hm
      rcases List.mem_filter.mp hm with ⟨_, hdec⟩
      exact (of_decide_eq_true hdec) (keyEq_refl m)

/-- Witness for the amended Claim C7 on a one-record store. -/
theorem delete_removes_oldest_match_witness :
    (∃ r, r ∈ [itemA] ∧ r.user_id = "user-a" ∧
      r.image_url = "https://images.dog.ceo/breeds/hound/a.jpg") ∧
    (∃ m table',
      m ∈ [itemA] ∧ m.user_id = "user-a" ∧
      m.image_url = "https://images.dog.ceo/breeds/hound/a.jpg" ∧
      (∀ r ∈ [itemA], r.user_id = "user-a" →
        r.image_url = "https://images.dog.ceo/breeds/hound/a.jpg" →
        m.created_at ≤ r.created_at) ∧
      deleteImageFromDynamoDB none [itemA] ("user-a")
        ("https://images.dog.ceo/breeds/hound/a.jpg") = Except.ok (m.id, table') ∧
      table'.length + 1 = ([itemA] : List Item).length ∧
      (∀ r ∈ table', r ∈ [itemA]) ∧
      (∀ r ∈ [itemA], r ≠ m → r ∈ table') ∧
      m ∉ table') :=
  ⟨⟨itemA, by decide, by decide, by decide⟩,
   delete_removes_oldest_match [itemA] ("user-a")
     ("https://images.dog.ceo/breeds/hound/a.jpg")
     ⟨itemA, by decide, by decide, by decide⟩ (List.pairwise_singleton _ _)⟩

end CognitoApp
